import Mathlib

/-!
# Verification of the RS-agent-mcp per-turn pipeline

This development gives a shallow embedding, in Lean 4, of the core per-turn
logic of the RS-agent-mcp service, and proves (or refutes) the specification
claims about it.  Every definition is translated directly from the Python
source:

* `capMessages`, `updateSessionData`, `freshSession`, `createSessionOutcome`
  from `app/services/session/chat_service.py`;
* `reportEvent`, `subscriberInitial`, `genStep` from `app/api/progress.py`;
* `extractTaskType` (and its helpers) from
  `app/agent/core/task_classifier.py` (`_extract_task_type_from_response`);
* `agentChat` from the `agent_chat` handler in
  `app/api/routers/chat_router.py`, with the settlement block
  (`settleOutcome`) mirroring the repeated credit-deduction code;
* `runAbortTurn` from the abort-flag handling spread over
  `agent_orchestrator.process_task`, `task_classifier.classify_task` and the
  chat router's two-stage structure.

Timestamps and log records carried by the Python data are irrelevant to each
claim and are omitted from the corresponding structures; everything else is
kept field-for-field.
-/

namespace RSAgent

/-! ## Chat-session store (`app/services/session/chat_service.py`) -/

/-- One chat message as persisted by the session store.  The Python dict also
carries a `timestamp` field (wall-clock time at append) which no claim
mentions; it is omitted here. -/
structure Msg where
  role : String
  content : String
deriving DecidableEq, Repr

/-- The session cap `self.max_history_messages = 50` from
`ChatSessionService.__init__`. -/
def maxHistoryMessages : Nat := 50

/-- The truncation performed by `ChatSessionService.update_session`
(lines 161-166): when the message list exceeds `max_history_messages`,
keep the first 2 messages plus the last `max_history_messages - 2`. -/
def capMessages (msgs : List Msg) : List Msg :=
  if msgs.length > maxHistoryMessages then
    msgs.take 2 ++ msgs.drop (msgs.length - (maxHistoryMessages - 2))
  else msgs

/-- Message list produced by `ChatSessionService.create_session`: exactly the
user message followed by the assistant message. -/
def createMessages (u a : Msg) : List Msg := [u, a]

/-- Message list produced by `ChatSessionService.update_session` for a loaded
session with messages `old`: append the new user and assistant messages, then
apply the cap. -/
def updateMessages (old : List Msg) (u a : Msg) : List Msg :=
  capMessages (old ++ [u, a])

/-- Persisted session data: `session_id`, `title`, `messages`
(`created_at` / `updated_at` timestamps omitted). -/
structure SessionData where
  session_id : String
  title : String
  messages : List Msg
deriving Repr

/-- The fresh session built by `update_session` when `load_session` finds the
session in neither backend (chat_service.py lines 137-145): empty message
list, title = the user prompt cut to its first 50 characters when longer. -/
def freshSession (sid user_prompt : String) : SessionData :=
  { session_id := sid
    title := if user_prompt.length > 50 then user_prompt.take 50 else user_prompt
    messages := [] }

/-- The session data persisted by `update_session`: start from the loaded
session, or from `freshSession` when the load found nothing, append the new
user/assistant pair and apply the cap. -/
def updateSessionData (loaded : Option SessionData) (sid prompt resp : String) :
    SessionData :=
  let base := loaded.getD (freshSession sid prompt)
  { base with
    messages := capMessages (base.messages ++
      [{ role := "user", content := prompt },
       { role := "assistant", content := resp }]) }

/-- Deployment mode from `Settings.DEPLOYMENT_MODE` (config.py). -/
inductive DeployMode where
  | production
  | localMode
deriving DecidableEq, Repr

/-- Result dict of `ChatSessionService.create_session`, restricted to the
`success` and `rshub_sync` keys the claims are about. -/
structure CreateResult where
  success : Bool
  rshubSync : Bool
deriving DecidableEq, Repr

/-- Outcome of `ChatSessionService.create_session` (lines 83-110) as a
function of whether the local write and the remote (RSHub) write succeed.
The Python code saves to the local cache first, then attempts the RSHub
save, and reports `success` iff the local save succeeded; `rshub_sync`
reports the remote outcome and is only present on success.  `create_session`
never consults `DEPLOYMENT_MODE`, so the `mode` argument is unused, exactly
as in the source. -/
def createSessionOutcome (_mode : DeployMode) (localOk rshubOk : Bool) :
    CreateResult :=
  if localOk then { success := true, rshubSync := rshubOk }
  else { success := false, rshubSync := false }

/-! ## Progress channel (`app/api/progress.py`) -/

/-- The per-session buffer bound `max_messages_per_session = 100` from
`ProgressReporter.__init__`. -/
def maxBufferedMessages : Nat := 100

/-- One `ProgressReporter.report` call on a session whose buffer is `buf`:
append the event, then keep only the last `max_messages_per_session` entries
when the bound is exceeded (progress.py lines 83-87).  Events are abstracted
to their identity (`Nat`); the claims only concern which events are kept. -/
def reportEvent (buf : List Nat) (e : Nat) : List Nat :=
  if (buf ++ [e]).length > maxBufferedMessages then
    (buf ++ [e]).drop ((buf ++ [e]).length - maxBufferedMessages)
  else buf ++ [e]

/-- The `[-10:]` history slice a new subscriber receives
(progress.py line 226): the last 10 buffered events (all of them when fewer
than 10 are buffered). -/
def lastTen (buf : List Nat) : List Nat := buf.drop (buf.length - 10)

/-- The initial output of `progress_stream_generator` for a subscriber
joining while the buffer is `buf`: the synthetic "connected" event, then the
last 10 buffered events (lines 215-227). -/
def subscriberInitial (connected : Nat) (buf : List Nat) : List Nat :=
  connected :: lastTen buf

/-- One polling iteration of `progress_stream_generator` (lines 232-240):
with `lastCount` messages already delivered and current buffer `buf`, yield
the new slice `buf[lastCount:]` when the buffer grew, else nothing; return
the yielded events and the updated `last_message_count`. -/
def genStep (lastCount : Nat) (buf : List Nat) : List Nat × Nat :=
  if lastCount < buf.length then (buf.drop lastCount, buf.length)
  else ([], lastCount)

/-! ## Task classifier (`app/agent/core/task_classifier.py`)

The parser `_extract_task_type_from_response` works on Python strings; it is
embedded here over `List Char`, which matches Python's code-point view of a
string.  Python's `\s` and `\d` classes are modelled by their ASCII meaning
(all inputs the classifier sees for these patterns are ASCII; the Chinese
pattern is a plain substring).  `str.lower()` is modelled by
`Char.toLower`, which like Python leaves the CJK characters unchanged. -/

/-- Python whitespace as matched by `\s` and stripped by `str.strip()`:
space, tab, newline, carriage return, vertical tab, form feed. -/
def isPySpace (c : Char) : Bool :=
  c = ' ' || c = '\t' || c = '\n' || c = '\r' ||
  c = Char.ofNat 11 || c = Char.ofNat 12

/-- The `response.lower()` step. -/
def strLower (cs : List Char) : List Char := cs.map Char.toLower

/-- Does `needle` occur at the head of `hay`? -/
def startsWithCl : List Char → List Char → Bool
  | [], _ => true
  | _ :: _, [] => false
  | a :: as, b :: bs => a = b && startsWithCl as bs

/-- Python's `needle in hay` substring test. -/
def containsSub (needle : List Char) : List Char → Bool
  | [] => needle.isEmpty
  | c :: t => startsWithCl needle (c :: t) || containsSub needle t

/-- Match of the regex `a\s*b` at the head of `hay` (for literal `b` not
beginning with whitespace, as in all source patterns, the greedy `\s*`
reduces to skipping the maximal whitespace run). -/
def gapMatchAt (a b hay : List Char) : Bool :=
  startsWithCl a hay && startsWithCl b ((hay.drop a.length).dropWhile isPySpace)

/-- `re.search` of `a\s*b` anywhere in the string. -/
def gapSearch (a b : List Char) : List Char → Bool
  | [] => gapMatchAt a b []
  | c :: t => gapMatchAt a b (c :: t) || gapSearch a b t

/-- Match of `a\s*\d+` at the head of `hay`. -/
def digitAfterGap (a hay : List Char) : Bool :=
  startsWithCl a hay &&
    (match (hay.drop a.length).dropWhile isPySpace with
     | c :: _ => c.isDigit
     | [] => false)

/-- `re.search` of `a\s*\d+` anywhere in the string. -/
def digitGapSearch (a : List Char) : List Char → Bool
  | [] => digitAfterGap a []
  | c :: t => digitAfterGap a (c :: t) || digitGapSearch a t

/-- The anchored pattern `^\d{3}\s*error`: three digits at the very start of
the string, optional whitespace, then `error`. -/
def threeDigitErrorStart : List Char → Bool
  | a :: b :: c :: rest =>
      a.isDigit && b.isDigit && c.isDigit &&
        startsWithCl "error".data (rest.dropWhile isPySpace)
  | _ => false

/-- The `error_patterns` loop of `_extract_task_type_from_response`
(task_classifier.py lines 137-154), applied to the lowered response. -/
def errorPatternHit (low : List Char) : Bool :=
  digitGapSearch "error code:".data low ||
  threeDigitErrorStart low ||
  containsSub "抱歉，对话完成时出现问题".data low ||
  gapSearch "api".data "error".data low ||
  containsSub "accountoverdue".data low ||
  gapSearch "request".data "failed".data low ||
  containsSub "unauthorized".data low ||
  containsSub "forbidden".data low ||
  gapSearch "rate".data "limit".data low

/-- The `isolated_error_codes` check (lines 157-162): `403` or `500` present
together with one of the error-context words. -/
def isolatedErrorHit (low : List Char) : Bool :=
  (containsSub "403".data low || containsSub "500".data low) &&
  (containsSub "error".data low || containsSub "failed".data low ||
   containsSub "forbidden".data low || containsSub "unauthorized".data low)

/-- The combined error-signal rejection applied to a raw response. -/
def errorSignal (response : String) : Bool :=
  let low := strLower response.data
  errorPatternHit low || isolatedErrorHit low

/-- Extend a pending integer token (sign, magnitude) with one digit. -/
def pushDigit (st : Bool × Nat) (c : Char) : Bool × Nat :=
  (st.1, st.2 * 10 + (c.toNat - 48))

/-- Value of a finished token. -/
def tokenVal (st : Bool × Nat) : Int :=
  if st.1 then -(st.2 : Int) else (st.2 : Int)

/-- Left-to-right scan implementing `re.findall(r'-?\d+', s)` followed by
`int(...)` on each match: a match is a maximal digit run, optionally
preceded by a minus sign that is immediately followed by a digit. -/
def intTokensAux : Option (Bool × Nat) → List Char → List Int
  | none, [] => []
  | some st, [] => [tokenVal st]
  | none, [c] => if c.isDigit then [tokenVal (false, c.toNat - 48)] else []
  | some st, [c] =>
      if c.isDigit then [tokenVal (pushDigit st c)] else [tokenVal st]
  | none, c :: d :: rest =>
      if c.isDigit then intTokensAux (some (false, c.toNat - 48)) (d :: rest)
      else if c = '-' && d.isDigit then
        intTokensAux (some (true, d.toNat - 48)) rest
      else intTokensAux none (d :: rest)
  | some st, c :: d :: rest =>
      if c.isDigit then intTokensAux (some (pushDigit st c)) (d :: rest)
      else if c = '-' && d.isDigit then
        tokenVal st :: intTokensAux (some (true, d.toNat - 48)) rest
      else tokenVal st :: intTokensAux none (d :: rest)
termination_by _ cs => cs.length
decreasing_by all_goals simp <;> omega

/-- All integers found in a string, in order, as by
`re.findall(r'-?\d+', s)`. -/
def intTokens (cs : List Char) : List Int := intTokensAux none cs

/-- Python `str.strip()`. -/
def pyStrip (cs : List Char) : List Char :=
  ((cs.dropWhile isPySpace).reverse.dropWhile isPySpace).reverse

/-- Helper for `splitLines`; `cur` is the current line accumulated in
reverse. -/
def splitLinesAux (cur : List Char) : List Char → List (List Char)
  | [] => [cur.reverse]
  | c :: rest =>
      if c = '\n' then cur.reverse :: splitLinesAux [] rest
      else splitLinesAux (c :: cur) rest

/-- Python `s.split('\n')` (on the empty string this yields one empty
line, exactly as in Python). -/
def splitLines (cs : List Char) : List (List Char) := splitLinesAux [] cs

/-- `self.supported_modes = [1, 2, 3, -1]` from `TaskClassifier.__init__`. -/
def supportedModes : List Int := [1, 2, 3, -1]

/-- Method 1 of the extraction (lines 166-182): iterate the given lines (the
caller passes them reversed, as `reversed(lines)` does), strip each, skip
empty lines, take the last integer of the line and stop at the first one in
the supported set. -/
def lineScanLoop : List (List Char) → Option Int
  | [] => none
  | l :: rest =>
      if (pyStrip l).isEmpty then lineScanLoop rest
      else
        match (intTokens (pyStrip l)).getLast? with
        | none => lineScanLoop rest
        | some n => if n ∈ supportedModes then some n else lineScanLoop rest

/-- Method 2 of the extraction (lines 184-193): walk the given integers (the
caller passes `reversed(all_numbers)`) and stop at the first one in the
supported set. -/
def numScanLoop : List Int → Option Int
  | [] => none
  | n :: rest => if n ∈ supportedModes then some n else numScanLoop rest

/-- `knowledge_keywords` (line 201). -/
def knowledgeKeywords : List String :=
  ["知识", "什么是", "什么", "如何", "为什么", "原理", "解释", "定义", "介绍", "说明"]

/-- `modeling_keywords` (line 206). -/
def modelingKeywords : List String :=
  ["构建", "生成", "创建", "建模", "提交", "计算", "参数"]

/-- `result_keywords` (line 211). -/
def resultKeywords : List String :=
  ["获取", "结果", "可视化", "完成", "分析"]

/-- `context_keywords` (line 215). -/
def contextKeywords : List String :=
  ["刚才", "之前", "历史", "任务", "之前提交", "之前创建", "运行"]

/-- `any(keyword in response_lower for keyword in ks)`. -/
def anyKeyword (ks : List String) (low : List Char) : Bool :=
  ks.any fun k => containsSub k.data low

/-- The keyword heuristics of lines 199-220, applied to the lowered
response, defaulting to 1. -/
def keywordFallback (low : List Char) : Int :=
  if anyKeyword knowledgeKeywords low then 1
  else if anyKeyword modelingKeywords low then 2
  else if anyKeyword resultKeywords low && anyKeyword contextKeywords low then 3
  else 1

/-- `TaskClassifier._extract_task_type_from_response` (lines 130-220): error
signal rejection, then the last-line integer walk, then the whole-response
scan, then the keyword heuristics. -/
def extractTaskType (response : String) : Int :=
  let low := strLower response.data
  if errorPatternHit low then -1
  else if isolatedErrorHit low then -1
  else
    match lineScanLoop (splitLines (pyStrip response.data)).reverse with
    | some t => t
    | none =>
        match numScanLoop (intTokens response.data).reverse with
        | some t => t
        | none => keywordFallback low

/-! ### Specification-side description of the parse (from the claim's words)

These definitions follow the specification sentence — "walks the non-empty
lines from last to first, extracts the trailing signed integer of each line,
and returns the first such integer that lies in the set; if none, scans the
whole response taking integers from last to first" — and are compared with
the source-derived `extractTaskType` in the refinement theorem. -/

/-- The response's lines, each stripped, empty ones removed. -/
def specNonEmptyLines (response : String) : List (List Char) :=
  ((splitLines (pyStrip response.data)).map pyStrip).filter fun l => !l.isEmpty

/-- The trailing signed integer of a line, when it has one. -/
def trailingInt (l : List Char) : Option Int := (intTokens l).getLast?

/-- Walk the non-empty lines from last to first and return the first
trailing integer lying in the supported set. -/
def specLineWalk (response : String) : Option Int :=
  ((specNonEmptyLines response).reverse.filterMap trailingInt).find?
    fun n => decide (n ∈ supportedModes)

/-- Scan all integers of the whole response from last to first and return
the first lying in the supported set. -/
def specWholeScan (response : String) : Option Int :=
  (intTokens response.data).reverse.find? fun n => decide (n ∈ supportedModes)

/-! ## Chat router (`app/api/routers/chat_router.py`, `agent_chat`)

`agent_chat` is modelled as a function of the turn's environment: the
deployment mode, the stage-1 classification result, whether the loaded
history is empty, the remote collaborators' answers (credit check, handler
exception) and the billing counter contents at settlement time.  The
outcome records the response fields and external effects the claims are
about. -/

/-- The value `run_analysis_agent(instruction_mode=0, ...)` hands back to the
router: an integer task code, or a non-integer value (the orchestrator
returns an error string when classification itself fails unexpectedly). -/
inductive ClassifierOut where
  | intCode (n : Int)
  | nonInt
deriving DecidableEq, Repr

/-- The stage-2 branch handlers dispatched by task code. -/
inductive Branch where
  | knowledge
  | rshubSubmit
  | rshubRetrieve
  | generalAnswer
deriving DecidableEq, Repr

/-- Environment of one `/agent/chat` turn. -/
structure TurnEnv where
  /-- `settings.DEPLOYMENT_MODE`. -/
  mode : DeployMode
  /-- result of the stage-1 classification call. -/
  classified : ClassifierOut
  /-- `not chat_history` at branch time. -/
  historyEmpty : Bool
  /-- whether `check_credits(token, 1)` reports sufficient balance. -/
  creditOk : Bool
  /-- whether the executed stage-2 handler raises an exception. -/
  handlerRaises : Bool
  /-- `billing_tracker` counter `llm_calls` at settlement time. -/
  llmCalls : Nat
  /-- `billing_tracker` counter `rshub_tasks` at settlement time. -/
  rshubTasks : Nat
  /-- `settings.LLM_COST_FACTOR`. -/
  llmFactor : ℚ
  /-- `settings.RSHUB_TASK_COST_FACTOR`. -/
  jobFactor : ℚ

/-- `billing_tracker.calculate_cost`: `total_cost = llm_calls *
llm_cost_factor + rshub_tasks * rshub_cost_factor`
(billing_tracker.py lines 77-79). -/
def turnCost (env : TurnEnv) : ℚ :=
  env.llmCalls * env.llmFactor + env.rshubTasks * env.jobFactor

/-- Observable outcome of one `/agent/chat` turn. -/
structure TurnOutcome where
  /-- HTTP error status raised via `HTTPException`, if any (402 for the
  failed credit preflight); `none` when a `ChatResponse` is returned. -/
  httpError : Option Nat
  /-- the `task_type` field of the returned `ChatResponse`; `none` both when
  the field is left at its `None` default and when no response is built. -/
  taskType : Option Int
  /-- the `status` field of the returned `ChatResponse` (empty when an
  `HTTPException` is raised instead). -/
  status : String
  /-- number of `check_credits` calls made. -/
  checkCreditCalls : Nat
  /-- deltas passed to `update_credits`, in call order. -/
  creditCalls : List ℚ
  /-- whether `billing_tracker.clear_session` ran. -/
  counterCleared : Bool
  /-- the stage-2 handler that was invoked, if any. -/
  branchRun : Option Branch
deriving DecidableEq, Repr

/-- The credit-settlement block repeated at chat_router.py lines 256-302,
339-387 and 503-551: in production, when `total_cost > 0`, one
`update_credits(token, -actual_cost)` call is made and the billing counter
is cleared (on deduction success and failure alike); at zero cost, and in
local mode, no credit call is made and the counter is left alone.  Returns
(credit-call deltas, counter cleared). -/
def settleOutcome (env : TurnEnv) : List ℚ × Bool :=
  match env.mode with
  | .production =>
      if 0 < turnCost env then ([-(turnCost env)], true) else ([], false)
  | .localMode => ([], false)

/-- The early returns for task codes -100, -101, -102 and -103
(chat_router.py lines 178-224): a canned `ChatResponse` carrying the code,
with no billing calculation, no credit call and no counter clear. -/
def earlyReturn (code : Int) (st : String) : TurnOutcome :=
  { httpError := none, taskType := some code, status := st,
    checkCreditCalls := 0, creditCalls := [], counterCleared := false,
    branchRun := none }

/-- The `except Exception` terminal path (lines 596-610): the counter is
cleared, no credit call is made, and the `ChatResponse` is built without a
`task_type` argument, leaving the field at its `None` default. -/
def exceptionReturn (checks : Nat) (b : Option Branch) : TurnOutcome :=
  { httpError := none, taskType := none, status := "error",
    checkCreditCalls := checks, creditCalls := [], counterCleared := true,
    branchRun := b }

/-- `safe_task_type` (lines 451-455): a non-integer classification is
replaced by 1, an integer is kept. -/
def safeOf : ClassifierOut → Int
  | .intCode n => n
  | .nonInt => 1

/-- The stage-2 dispatch by task code (lines 472-492): 1 runs the knowledge
query, other codes go to `run_analysis_agent`, where only 2 and 3 name
supported handlers — anything else raises and is caught by the exception
path. -/
def branchOf (n : Int) : Option Branch :=
  if n = 1 then some .knowledge
  else if n = 2 then some .rshubSubmit
  else if n = 3 then some .rshubRetrieve
  else none

/-- Number of `check_credits` calls made before stage 2 (lines 426-446):
one in production, none in local mode. -/
def checksOf (m : DeployMode) : Nat := if m = .production then 1 else 0

/-- The task-3-with-empty-history guidance response (lines 226-314):
settlement runs, no preflight, no handler, `task_type = 3`. -/
def guidanceReturn (env : TurnEnv) : TurnOutcome :=
  { httpError := none, taskType := some 3, status := "guidance_provided",
    checkCreditCalls := 0, creditCalls := (settleOutcome env).1,
    counterCleared := (settleOutcome env).2, branchRun := none }

/-- The -1 general-answer branch (lines 316-424): the handler runs, then
settlement, with no preflight. -/
def generalAnswerReturn (env : TurnEnv) : TurnOutcome :=
  { httpError := none, taskType := some (-1), status := "general_answer",
    checkCreditCalls := 0, creditCalls := (settleOutcome env).1,
    counterCleared := (settleOutcome env).2, branchRun := some .generalAnswer }

/-- The failed production preflight (lines 436-442): `HTTPException(402)` is
raised after the single `check_credits` call; no handler, no settlement, no
counter clear. -/
def paymentRequiredReturn : TurnOutcome :=
  { httpError := some 402, taskType := none, status := "",
    checkCreditCalls := 1, creditCalls := [], counterCleared := false,
    branchRun := none }

/-- The normal stage-2 completion (lines 469-591): handler ran, settlement
ran, `task_type = safe_task_type`. -/
def successReturn (env : TurnEnv) (br : Branch) : TurnOutcome :=
  { httpError := none, taskType := some (safeOf env.classified),
    status := "success", checkCreditCalls := checksOf env.mode,
    creditCalls := (settleOutcome env).1,
    counterCleared := (settleOutcome env).2, branchRun := some br }

/-- The `agent_chat` handler, branching on the classification exactly as the
source's `if`/`elif` chain does (lines 178-591): early error codes, the
task-3-without-history guidance response, the -1 general-answer branch, and
otherwise the production credit preflight followed by stage 2. -/
def agentChat (env : TurnEnv) : TurnOutcome :=
  if env.classified = .intCode (-100) then earlyReturn (-100) "user_aborted"
  else if env.classified = .intCode (-101) then earlyReturn (-101) "llm_timeout"
  else if env.classified = .intCode (-102) then earlyReturn (-102) "network_error"
  else if env.classified = .intCode (-103) then earlyReturn (-103) "api_error"
  else if env.classified = .intCode 3 ∧ env.historyEmpty = true then
    guidanceReturn env
  else if env.classified = .intCode (-1) then
    if env.handlerRaises then exceptionReturn 0 (some .generalAnswer)
    else generalAnswerReturn env
  else if env.mode = .production ∧ env.creditOk = false then
    paymentRequiredReturn
  else
    match branchOf (safeOf env.classified) with
    | none => exceptionReturn (checksOf env.mode) none
    | some br =>
        if env.handlerRaises then exceptionReturn (checksOf env.mode) (some br)
        else successReturn env br

/-- The classifications whose turns reach the production credit preflight
(lines 426-446): everything except the four error codes, the -1 branch and
the task-3-with-empty-history guidance branch. -/
def reachesPreflight (c : ClassifierOut) (historyEmpty : Bool) : Bool :=
  match c with
  | .nonInt => true
  | .intCode n =>
      !(decide (n = -100) || decide (n = -101) || decide (n = -102) ||
        decide (n = -103) || decide (n = -1) || (decide (n = 3) && historyEmpty))

/-- The four terminal upstream-error codes. -/
def isUpstreamErrorCode (c : ClassifierOut) : Prop :=
  c = .intCode (-100) ∨ c = .intCode (-101) ∨
  c = .intCode (-102) ∨ c = .intCode (-103)

instance : DecidablePred isUpstreamErrorCode := fun c => by
  unfold isUpstreamErrorCode; infer_instance

/-! ## Abort-flag handling

The cooperative-cancellation protocol lives in three places:
`abort_session` sets `abort_flags[session_id]` (progress.py lines 166-178);
`AgentOrchestrator.process_task` calls `clear_abort_flag` at the start of
**every** invocation (agent_orchestrator.py lines 62-64) — and `agent_chat`
invokes `process_task` twice per turn, once for stage-1 classification and
once for the stage-2 handler; the only check that can end the turn with task
code -100 is in `classify_task` just before its LLM call
(task_classifier.py lines 57-59).  `runAbortTurn` traces one turn that
classifies to task code 2 (submission), whose handler performs two further
external calls (the parameter-generation LLM call and the job submission)
with no abort checks, faithful to the submission workflow.  The parameter
says when the abort endpoint fires relative to the turn. -/

/-- When, relative to the traced turn, the abort endpoint sets the flag. -/
inductive AbortPoint where
  /-- before the turn begins. -/
  | beforeTurn
  /-- between stage 1's `clear_abort_flag` and the classifier's check. -/
  | afterStageOneClear
  /-- after the classifier's check, before its LLM call returns. -/
  | afterClassifierCheck
  /-- not at all. -/
  | never
deriving DecidableEq, Repr

/-- Observable trace of the turn for the cancellation claims. -/
structure AbortTrace where
  /-- task code the turn terminates with. -/
  finalCode : Int
  /-- external calls that complete after the abort endpoint fired. -/
  callsAfterAbort : Nat
  /-- whether the turn reached stage 2 (whose `process_task` entry runs
  `clear_abort_flag` in the middle of the turn). -/
  stageTwoClearRan : Bool
  /-- whether the abort flag was still set when that mid-turn clear ran. -/
  flagSetAtStageTwoClear : Bool
  /-- the abort flag after the turn ends. -/
  flagAtEnd : Bool
deriving DecidableEq, Repr

/-- One turn of the two-stage pipeline under an abort fired at `p`.  Stage 1
(`process_task` for classification) clears the flag on entry; the
classifier checks the flag once, before its LLM call; the router's stage 2
(`process_task` for the classified task) clears the flag again on entry and
the submission handler then completes its external calls unconditionally. -/
def runAbortTurn (p : AbortPoint) : AbortTrace :=
  -- stage-1 entry: clear_abort_flag, wiping any flag set before the turn
  let flagAfterClear1 := false
  -- the abort endpoint may fire right after that clear
  let flagAtCheck := flagAfterClear1 || decide (p = .afterStageOneClear)
  if flagAtCheck then
    -- classify_task observes the flag and returns -100; the router's
    -- task_type == -100 branch returns at once, leaving the flag set
    { finalCode := -100, callsAfterAbort := 0, stageTwoClearRan := false,
      flagSetAtStageTwoClear := false, flagAtEnd := true }
  else
    -- the classification LLM call completes; if the abort fired at or
    -- before this point it precedes this call's completion
    let flagAfterLLM := decide (p = .afterClassifierCheck)
    let classifierCallAfterAbort : Nat :=
      if p = .beforeTurn || p = .afterClassifierCheck then 1 else 0
    -- stage-2 entry for the classified task: clear_abort_flag again
    let flagAfterClear2 := false
    -- the submission handler's two external calls run with no abort checks
    let handlerCallsAfterAbort : Nat :=
      if p = .beforeTurn || p = .afterClassifierCheck then 2 else 0
    { finalCode := 2,
      callsAfterAbort := classifierCallAfterAbort + handlerCallsAfterAbort,
      stageTwoClearRan := true,
      flagSetAtStageTwoClear := flagAfterLLM,
      flagAtEnd := flagAfterClear2 }

/-- A dummy message used by concrete witnesses. -/
def mdummy : Msg := { role := "user", content := "x" }

/-- A production turn whose classification counted one LLM call and whose
stage-2 handler then raises: the caught-exception terminal path. -/
def handlerExceptionEnv : TurnEnv :=
  { mode := .production, classified := .intCode 1, historyEmpty := true,
    creditOk := true, handlerRaises := true, llmCalls := 1, rshubTasks := 0,
    llmFactor := 1, jobFactor := 1 }

/-- A production turn ending on the -103 early-return path with a non-empty
billing counter. -/
def errorCodeEnv : TurnEnv :=
  { mode := .production, classified := .intCode (-103), historyEmpty := true,
    creditOk := true, handlerRaises := false, llmCalls := 1, rshubTasks := 0,
    llmFactor := 1, jobFactor := 1 }

/-- A local-mode turn used by the settlement witness. -/
def localEnv : TurnEnv :=
  { mode := .localMode, classified := .intCode 1, historyEmpty := false,
    creditOk := true, handlerRaises := false, llmCalls := 3, rshubTasks := 2,
    llmFactor := 1, jobFactor := 1 }

/-- A production general-answer turn with one counted LLM call (cost 1),
used by the settlement witness to exercise an actually-settling path. -/
def prodSettleEnv : TurnEnv :=
  { mode := .production, classified := .intCode (-1), historyEmpty := false,
    creditOk := true, handlerRaises := false, llmCalls := 1, rshubTasks := 0,
    llmFactor := 1, jobFactor := 1 }

/-- A production turn classified as -1 with insufficient credit. -/
def minusOneEnv : TurnEnv :=
  { mode := .production, classified := .intCode (-1), historyEmpty := false,
    creditOk := false, handlerRaises := false, llmCalls := 1, rshubTasks := 0,
    llmFactor := 1, jobFactor := 1 }

/-- A production task-2 turn with insufficient credit, used by the preflight
witness. -/
def preflightWitnessEnv : TurnEnv :=
  { mode := .production, classified := .intCode 2, historyEmpty := false,
    creditOk := false, handlerRaises := false, llmCalls := 1, rshubTasks := 0,
    llmFactor := 1, jobFactor := 1 }

/-- A local-mode task-2 turn whose handler raises, used for the missing
`task_type` counterexample. -/
def taskTypeExceptionEnv : TurnEnv :=
  { mode := .localMode, classified := .intCode 2, historyEmpty := false,
    creditOk := true, handlerRaises := true, llmCalls := 2, rshubTasks := 1,
    llmFactor := 1, jobFactor := 1 }

/-- A local-mode turn aborted by the user, used by the closure witness. -/
def closureWitnessEnv : TurnEnv :=
  { mode := .localMode, classified := .intCode (-100), historyEmpty := false,
    creditOk := true, handlerRaises := false, llmCalls := 0, rshubTasks := 0,
    llmFactor := 1, jobFactor := 1 }

/-- A production turn whose classification came back as a non-integer. -/
def nonIntWitnessEnv : TurnEnv :=
  { mode := .production, classified := .nonInt, historyEmpty := true,
    creditOk := true, handlerRaises := false, llmCalls := 1, rshubTasks := 0,
    llmFactor := 1, jobFactor := 1 }

/-- A 50-message session used by the session-cap witness. -/
def capWitnessList : List Msg := List.replicate 50 mdummy

/-! ## Theorems -/

/-- C6 counterexample: in production mode, `create_session` reports success
when the local-cache write succeeds even though the RSHub write failed, and
reports failure when the RSHub write succeeds but the local write fails —
refuting "the operation reports success if and only if the remote write
succeeds" and, with it, "after every successful Create the remote store
contains the write". -/
theorem create_session_success_without_remote :
    (createSessionOutcome .production true false).success = true ∧
    (createSessionOutcome .production true false).rshubSync = false ∧
    (createSessionOutcome .production false true).success = false := by
  decide

/-- C6 amended: `create_session` ignores the deployment mode entirely: it
writes the local cache first and reports success exactly when the local
write succeeds; the RSHub write is attempted best-effort and its outcome is
only reported in `rshub_sync`. -/
theorem create_session_local_first (m : DeployMode) (l r : Bool) :
    (createSessionOutcome m l r).success = l ∧
    (createSessionOutcome m l r).rshubSync = (l && r) ∧
    createSessionOutcome m l r = createSessionOutcome .localMode l r := by
  cases m <;> cases l <;> cases r <;> decide

/-- C7: after an update write the persisted message list has at most
`MAX_MESSAGES = 50` entries; whenever truncation occurs the result is
exactly the first two messages of the original session followed by the most
recent 48 = cap-2 messages; the first two messages are preserved whenever
the original session had at least 2; and a create write (exactly 2
messages) trivially respects the cap. -/
theorem session_cap_preserved (old : List Msg) (u a : Msg) :
    (updateMessages old u a).length ≤ maxHistoryMessages ∧
    (maxHistoryMessages < old.length + 2 →
      updateMessages old u a =
        old.take 2 ++ (old ++ [u, a]).drop (old.length + 2 - 48)) ∧
    (2 ≤ old.length → (updateMessages old u a).take 2 = old.take 2) ∧
    (createMessages u a).length ≤ maxHistoryMessages := by
  unfold updateMessages capMessages createMessages maxHistoryMessages
  refine ⟨?_, ?_, ?_, by simp⟩
  · split
    · next h =>
      simp only [List.length_append, List.length_take, List.length_drop,
        List.length_cons, List.length_nil] at *
      omega
    · next h =>
      simp only [List.length_append, List.length_cons, List.length_nil] at *
      omega
  · intro hlong
    have h2 : 2 ≤ old.length := by omega
    rw [if_pos (by
      simp only [List.length_append, List.length_cons, List.length_nil]
      omega)]
    rw [List.take_append_of_le_length h2]
    have hidx : (old ++ [u, a]).length - (50 - 2) = old.length + 2 - 48 := by
      simp only [List.length_append, List.length_cons, List.length_nil]
    rw [hidx]
  · intro h2
    split
    · next h =>
      rw [List.take_append_of_le_length
        (by rw [List.length_take]; simp only [List.length_append,
          List.length_cons, List.length_nil]; omega)]
      rw [List.take_take, min_self]
      exact List.take_append_of_le_length h2
    · next h =>
      exact List.take_append_of_le_length h2

/-- C7 witness: a concrete 50-message session receiving one new
user/assistant pair is truncated back to 50 messages with its first two
messages intact. -/
theorem session_cap_witness :
    (updateMessages capWitnessList mdummy mdummy).length ≤ maxHistoryMessages ∧
    updateMessages capWitnessList mdummy mdummy =
      capWitnessList.take 2 ++
        (capWitnessList ++ [mdummy, mdummy]).drop (capWitnessList.length + 2 - 48) ∧
    (updateMessages capWitnessList mdummy mdummy).take 2 = capWitnessList.take 2 :=
  ⟨(session_cap_preserved capWitnessList mdummy mdummy).1,
   (session_cap_preserved capWitnessList mdummy mdummy).2.1 (by decide),
   (session_cap_preserved capWitnessList mdummy mdummy).2.2.1 (by decide)⟩

/-- C10: when `update_session` finds the session in neither backend, it does
not fail: it builds a fresh session whose title is the user prompt cut to
its first 50 characters when longer, whose message list is exactly the new
user message followed by the new assistant message, and persists that data
(the persisted record is the function's result). -/
theorem update_session_missing_builds_fresh (sid prompt resp : String) :
    (updateSessionData none sid prompt resp).title =
      (if prompt.length > 50 then prompt.take 50 else prompt) ∧
    (updateSessionData none sid prompt resp).messages =
      [{ role := "user", content := prompt },
       { role := "assistant", content := resp }] ∧
    (updateSessionData none sid prompt resp).session_id = sid := by
  refine ⟨rfl, ?_, rfl⟩
  simp [updateSessionData, freshSession, capMessages, maxHistoryMessages]

/-- C8 counterexample: once a session's buffer holds 100 events, a newly
published event is trimmed in with the oldest dropped, the buffer length
stays at 100, and the subscriber loop (which detects new events only by
buffer growth) yields nothing — the live event is never delivered to an
already-connected subscriber, so live events do not reach subscribers in
publish order once the buffer is at capacity. -/
theorem progress_live_event_dropped_at_capacity :
    (reportEvent (List.range 100) 100).length = 100 ∧
    genStep (List.range 100).length (reportEvent (List.range 100) 100) =
      ([], 100) := by
  constructor <;> rfl

/-- C8 amended: the buffer never exceeds 100 events and overflow drops the
oldest; a new subscriber first receives the synthetic connected event
followed by at most the 10 most recent buffered events (a suffix of the
buffer); and while the buffer is below capacity a newly published event is
yielded to the subscriber immediately, preserving publish order.  (At
capacity, live delivery fails — see the counterexample.) -/
theorem progress_buffer_bounds (buf : List Nat) (e connected : Nat) :
    (buf.length ≤ maxBufferedMessages →
      (reportEvent buf e).length ≤ maxBufferedMessages) ∧
    (buf.length = maxBufferedMessages →
      reportEvent buf e = (buf ++ [e]).drop 1) ∧
    subscriberInitial connected buf = connected :: lastTen buf ∧
    (lastTen buf).length ≤ 10 ∧
    lastTen buf <:+ buf ∧
    (buf.length < maxBufferedMessages →
      genStep buf.length (reportEvent buf e) = ([e], buf.length + 1)) := by
  refine ⟨?_, ?_, rfl, ?_, ?_, ?_⟩
  · intro hle
    unfold reportEvent maxBufferedMessages at *
    split
    · next h =>
      simp only [List.length_drop, List.length_append, List.length_cons,
        List.length_nil] at h ⊢
      omega
    · next h =>
      simp only [List.length_append, List.length_cons, List.length_nil,
        gt_iff_lt, not_lt] at h ⊢
      omega
  · intro heq
    unfold reportEvent maxBufferedMessages at *
    rw [if_pos (by
      simp only [List.length_append, List.length_cons, List.length_nil]
      omega)]
    congr 1
    simp only [List.length_append, List.length_cons, List.length_nil]
    omega
  · unfold lastTen
    simp only [List.length_drop]
    omega
  · unfold lastTen
    exact List.drop_suffix _ _
  · intro hlt
    unfold maxBufferedMessages at hlt
    have hre : reportEvent buf e = buf ++ [e] := by
      unfold reportEvent maxBufferedMessages
      rw [if_neg (by
        simp only [List.length_append, List.length_cons, List.length_nil,
          gt_iff_lt, not_lt]
        omega)]
    rw [hre]
    unfold genStep
    rw [if_pos (by
      simp only [List.length_append, List.length_cons, List.length_nil]
      omega)]
    rw [List.drop_left]
    simp

/-- C8 witness: on a concrete 5-event buffer, a report appends without
trimming and the subscriber loop yields exactly the new event. -/
theorem progress_buffer_witness :
    (reportEvent (List.range 5) 7).length ≤ maxBufferedMessages ∧
    genStep (List.range 5).length (reportEvent (List.range 5) 7) =
      ([7], (List.range 5).length + 1) :=
  ⟨(progress_buffer_bounds (List.range 5) 7 0).1 (by decide),
   (progress_buffer_bounds (List.range 5) 7 0).2.2.2.2.2 (by decide)⟩

/-- The method-2 loop is the first supported integer found in the given
order. -/
theorem numScanLoop_eq_find (l : List Int) :
    numScanLoop l = l.find? fun n => decide (n ∈ supportedModes) := by
  induction l with
  | nil => rfl
  | cons n rest ih =>
    by_cases h : n ∈ supportedModes
    · simp [numScanLoop, List.find?_cons, h]
    · simp [numScanLoop, List.find?_cons, h, ih]

/-- The method-1 loop over a list of lines equals: strip each line, drop the
empty ones, take each line's trailing integer, and return the first one in
the supported set. -/
theorem lineScanLoop_eq_find (ls : List (List Char)) :
    lineScanLoop ls =
      (((ls.map pyStrip).filter fun l => !l.isEmpty).filterMap
        trailingInt).find? fun n => decide (n ∈ supportedModes) := by
  induction ls with
  | nil => rfl
  | cons l rest ih =>
    by_cases he : (pyStrip l).isEmpty
    · simp [lineScanLoop, List.filter_cons, he, ih]
    · cases ht : (intTokens (pyStrip l)).getLast? with
      | none =>
        simp [lineScanLoop, List.filter_cons, he, List.filterMap_cons,
          trailingInt, ht, ih]
      | some n =>
        by_cases hm : n ∈ supportedModes
        · simp [lineScanLoop, List.filter_cons, he, List.filterMap_cons,
            trailingInt, ht, List.find?_cons, hm]
        · simp [lineScanLoop, List.filter_cons, he, List.filterMap_cons,
            trailingInt, ht, List.find?_cons, hm, ih]

/-- C4: the task-type extraction follows the specified algorithm exactly —
error-signal responses yield -1; otherwise the walk of the non-empty lines
from last to first returns the first trailing integer in {1, 2, 3, -1};
failing that, the whole-response scan from last to first; failing that, the
keyword heuristics with default 1.  Determinism ("parsing the same response
twice yields the same task code") is immediate: the extraction is a pure
function of the response string. -/
theorem classifier_parse_follows_spec (r : String) :
    extractTaskType r =
      if errorSignal r then -1
      else
        match specLineWalk r with
        | some t => t
        | none =>
            match specWholeScan r with
            | some t => t
            | none => keywordFallback (strLower r.data) := by
  have h1 : lineScanLoop (splitLines (pyStrip r.data)).reverse = specLineWalk r := by
    rw [lineScanLoop_eq_find]
    unfold specLineWalk specNonEmptyLines
    rw [List.map_reverse, List.filter_reverse]
  have h2 : numScanLoop (intTokens r.data).reverse = specWholeScan r := by
    rw [numScanLoop_eq_find]
    rfl
  unfold extractTaskType errorSignal
  by_cases hp : errorPatternHit (strLower r.data)
  · simp [hp]
  · by_cases hi : isolatedErrorHit (strLower r.data)
    · simp [hp, hi]
    · simp only [hp, hi, Bool.false_or, if_false, if_neg, Bool.or_self]
      rw [h1, h2]
      simp

/-- Shape of the settlement block: either a single deduction of the full
cost with a counter clear (production, positive cost), or no credit call
and no counter clear. -/
theorem settle_shape (env : TurnEnv) :
    (settleOutcome env = ([-turnCost env], true) ∧ env.mode = .production ∧
      0 < turnCost env) ∨
    settleOutcome env = ([], false) := by
  unfold settleOutcome
  cases hm : env.mode with
  | production =>
    by_cases h : 0 < turnCost env
    · exact Or.inl ⟨by rw [if_pos h], rfl, h⟩
    · exact Or.inr (by rw [if_neg h])
  | localMode => exact Or.inr rfl

/-- The settlement-field conjuncts hold for any outcome whose credit fields
come from the settlement block. -/
theorem settled_fields (env : TurnEnv) (o : TurnOutcome)
    (hc : o.creditCalls = (settleOutcome env).1)
    (hcl : o.counterCleared = (settleOutcome env).2) :
    o.creditCalls.length ≤ 1 ∧
    (∀ d ∈ o.creditCalls, d = -turnCost env) ∧
    (env.mode = .localMode → o.creditCalls = []) ∧
    (o.creditCalls ≠ [] →
      o.counterCleared = true ∧ env.mode = .production ∧ 0 < turnCost env) := by
  rcases settle_shape env with ⟨hs, hm, hpos⟩ | hs <;> rw [hs] at hc hcl
  · refine ⟨by simp [hc], by simp [hc], ?_, fun _ => ⟨hcl, hm, hpos⟩⟩
    intro hl
    exact absurd (hl.symm.trans hm) (by simp)
  · simp [hc, hcl]

/-- Every outcome of a turn has its credit fields either taken from the
settlement block or empty (with the counter cleared only by the exception
handler). -/
theorem agentChat_credit_shape (env : TurnEnv) :
    ((agentChat env).creditCalls = (settleOutcome env).1 ∧
     (agentChat env).counterCleared = (settleOutcome env).2) ∨
    (agentChat env).creditCalls = [] := by
  unfold agentChat
  by_cases h0 : env.classified = .intCode (-100)
  · simp [h0, earlyReturn]
  by_cases h1 : env.classified = .intCode (-101)
  · simp [h0, h1, earlyReturn]
  by_cases h2 : env.classified = .intCode (-102)
  · simp [h0, h1, h2, earlyReturn]
  by_cases h3 : env.classified = .intCode (-103)
  · simp [h0, h1, h2, h3, earlyReturn]
  by_cases hg : env.classified = .intCode 3 ∧ env.historyEmpty = true
  · simp [h0, h1, h2, h3, hg, guidanceReturn]
  by_cases hm1 : env.classified = .intCode (-1)
  · by_cases hr : env.handlerRaises
    · simp [h0, h1, h2, h3, hg, hm1, hr, exceptionReturn]
    · simp [h0, h1, h2, h3, hg, hm1, hr, generalAnswerReturn]
  by_cases hpay : env.mode = .production ∧ env.creditOk = false
  · simp [h0, h1, h2, h3, hg, hm1, hpay, paymentRequiredReturn]
  cases hb : branchOf (safeOf env.classified) with
  | none => simp [h0, h1, h2, h3, hg, hm1, hpay, hb, exceptionReturn]
  | some br =>
    by_cases hr : env.handlerRaises
    · simp [h0, h1, h2, h3, hg, hm1, hpay, hb, hr, exceptionReturn]
    · simp [h0, h1, h2, h3, hg, hm1, hpay, hb, hr, successReturn]

/-- On the four upstream-error early returns the whole outcome is the
canned response: no credit call, no counter clear. -/
theorem agentChat_upstream_error (env : TurnEnv)
    (h : isUpstreamErrorCode env.classified) :
    (agentChat env).creditCalls = [] ∧
    (agentChat env).counterCleared = false := by
  unfold agentChat
  rcases h with h | h | h | h
  · simp [h, earlyReturn]
  · by_cases h0 : env.classified = .intCode (-100) <;>
      simp [h0, h, earlyReturn]
  · by_cases h0 : env.classified = .intCode (-100) <;>
      by_cases h1 : env.classified = .intCode (-101) <;>
        simp [h0, h1, h, earlyReturn]
  · by_cases h0 : env.classified = .intCode (-100) <;>
      by_cases h1 : env.classified = .intCode (-101) <;>
        by_cases h2 : env.classified = .intCode (-102) <;>
          simp [h0, h1, h2, h, earlyReturn]

/-- C1 counterexample: settlement does not run on every terminal path.  On
the caught-exception path of a turn that counted one LLM call (cost 1 > 0 in
production) no `update_credits` call is issued (the counter is merely
cleared); and on the -103 early-return path neither a credit call nor a
counter clear happens at all, whatever the counter holds. -/
theorem settlement_skipped_on_terminal_paths :
    handlerExceptionEnv.llmCalls = 1 ∧
    0 < turnCost handlerExceptionEnv ∧
    (agentChat handlerExceptionEnv).creditCalls = [] ∧
    (agentChat handlerExceptionEnv).counterCleared = true ∧
    errorCodeEnv.llmCalls = 1 ∧
    (agentChat errorCodeEnv).creditCalls = [] ∧
    (agentChat errorCodeEnv).counterCleared = false := by
  refine ⟨rfl, by norm_num [turnCost, handlerExceptionEnv], ?_, ?_, rfl, ?_, ?_⟩ <;>
    simp [agentChat, handlerExceptionEnv, errorCodeEnv, earlyReturn,
      exceptionReturn, branchOf, safeOf]

/-- In production with positive cost the settlement block issues the single
deduction of the full cost and clears the counter. -/
theorem settle_production_pos (env : TurnEnv) (hm : env.mode = .production)
    (hpos : 0 < turnCost env) :
    settleOutcome env = ([-turnCost env], true) := by
  simp only [settleOutcome, hm]
  rw [if_pos hpos]

/-- A classification that reaches the preflight is none of the six earlier
branch conditions of the router's `if`/`elif` chain. -/
theorem reachesPreflight_not_early (c : ClassifierOut) (he : Bool)
    (hp : reachesPreflight c he = true) :
    c ≠ .intCode (-100) ∧ c ≠ .intCode (-101) ∧ c ≠ .intCode (-102) ∧
    c ≠ .intCode (-103) ∧ ¬(c = .intCode 3 ∧ he = true) ∧
    c ≠ .intCode (-1) := by
  cases hc2 : c with
  | nonInt => simp
  | intCode n =>
    rw [hc2] at hp
    simp only [reachesPreflight, Bool.not_eq_eq_eq_not, Bool.not_true,
      Bool.or_eq_false_iff, Bool.and_eq_false_iff,
      decide_eq_false_iff_not] at hp
    obtain ⟨⟨⟨⟨⟨hp0, hp1⟩, hp2⟩, hp3⟩, hp4⟩, hp5⟩ := hp
    refine ⟨by simp [hp0], by simp [hp1], by simp [hp2], by simp [hp3],
      ?_, by simp [hp4]⟩
    rintro ⟨he2, hh⟩
    rcases hp5 with h | h
    · exact h (by injection he2)
    · rw [hh] at h; cases h

/-- C1 amended: at most one `update_credits` call is made per turn and its
delta is always `-(llm_calls * LLM_FACTOR + rshub_tasks * JOB_FACTOR)`; in
local mode no credit call occurs; whenever a credit call occurs the turn is
in production with positive cost and the billing counter is cleared; on the
four upstream-error early returns no credit call occurs and the counter is
not cleared; and conversely, on each of the three settling paths — the
task-3-empty-history guidance response, the completed -1 general-answer
branch, and the completed stage-2 dispatch — a production turn with
positive cost does issue exactly the one `update_credits(token, -cost)`
call and clears the counter. -/
theorem settlement_discipline (env : TurnEnv) :
    (agentChat env).creditCalls.length ≤ 1 ∧
    (∀ d ∈ (agentChat env).creditCalls, d = -turnCost env) ∧
    (env.mode = .localMode → (agentChat env).creditCalls = []) ∧
    ((agentChat env).creditCalls ≠ [] →
      (agentChat env).counterCleared = true ∧ env.mode = .production ∧
        0 < turnCost env) ∧
    (isUpstreamErrorCode env.classified →
      (agentChat env).creditCalls = [] ∧
      (agentChat env).counterCleared = false) ∧
    (env.mode = .production → 0 < turnCost env →
      ((env.classified = .intCode 3 ∧ env.historyEmpty = true) →
        (agentChat env).creditCalls = [-turnCost env] ∧
        (agentChat env).counterCleared = true) ∧
      (env.classified = .intCode (-1) → env.handlerRaises = false →
        (agentChat env).creditCalls = [-turnCost env] ∧
        (agentChat env).counterCleared = true) ∧
      (reachesPreflight env.classified env.historyEmpty = true →
        env.creditOk = true → env.handlerRaises = false →
        ∀ br, branchOf (safeOf env.classified) = some br →
        (agentChat env).creditCalls = [-turnCost env] ∧
        (agentChat env).counterCleared = true)) := by
  have hpos_part : env.mode = .production → 0 < turnCost env →
      ((env.classified = .intCode 3 ∧ env.historyEmpty = true) →
        (agentChat env).creditCalls = [-turnCost env] ∧
        (agentChat env).counterCleared = true) ∧
      (env.classified = .intCode (-1) → env.handlerRaises = false →
        (agentChat env).creditCalls = [-turnCost env] ∧
        (agentChat env).counterCleared = true) ∧
      (reachesPreflight env.classified env.historyEmpty = true →
        env.creditOk = true → env.handlerRaises = false →
        ∀ br, branchOf (safeOf env.classified) = some br →
        (agentChat env).creditCalls = [-turnCost env] ∧
        (agentChat env).counterCleared = true) := by
    intro hm hpos
    refine ⟨?_, ?_, ?_⟩
    · rintro ⟨h3, hh⟩
      have hout : agentChat env = guidanceReturn env := by
        unfold agentChat
        simp [h3, hh]
      simp [hout, guidanceReturn, settle_production_pos env hm hpos]
    · intro hm1 hr
      have hout : agentChat env = generalAnswerReturn env := by
        unfold agentChat
        simp [hm1, hr]
      simp [hout, generalAnswerReturn, settle_production_pos env hm hpos]
    · intro hp hok hr br hb
      obtain ⟨h0, h1, h2, h3, hg, hm1⟩ := reachesPreflight_not_early _ _ hp
      have hpay : ¬(env.mode = .production ∧ env.creditOk = false) := by
        rintro ⟨_, hco⟩
        rw [hok] at hco
        cases hco
      have hout : agentChat env = successReturn env br := by
        unfold agentChat
        simp [h0, h1, h2, h3, hg, hm1, hpay, hb, hr]
      simp [hout, successReturn, settle_production_pos env hm hpos]
  rcases agentChat_credit_shape env with ⟨hc, hcl⟩ | hc
  · have hf := settled_fields env (agentChat env) hc hcl
    exact ⟨hf.1, hf.2.1, hf.2.2.1, hf.2.2.2,
      fun h => agentChat_upstream_error env h, hpos_part⟩
  · exact ⟨by simp [hc], by simp [hc], fun _ => hc,
      fun hne => absurd hc hne, fun h => agentChat_upstream_error env h,
      hpos_part⟩

/-- C1 witness: in a concrete local-mode turn no credit call occurs, and a
concrete production general-answer turn with one counted LLM call issues
exactly the single deduction of its cost and clears the counter. -/
theorem settlement_discipline_witness :
    (agentChat localEnv).creditCalls = [] ∧
    (agentChat prodSettleEnv).creditCalls = [-turnCost prodSettleEnv] ∧
    (agentChat prodSettleEnv).counterCleared = true :=
  ⟨(settlement_discipline localEnv).2.2.1 rfl,
   (((settlement_discipline prodSettleEnv).2.2.2.2.2 rfl
      (by norm_num [turnCost, prodSettleEnv])).2.1 rfl rfl).1,
   (((settlement_discipline prodSettleEnv).2.2.2.2.2 rfl
      (by norm_num [turnCost, prodSettleEnv])).2.1 rfl rfl).2⟩

/-- C2 counterexample: a turn classified -1 executes the general-answer
handler with no `check_credits` preflight at all, even in production with
insufficient credit — the -1 branch precedes the credit check in the
router. -/
theorem preflight_skipped_for_general_answer :
    (agentChat minusOneEnv).checkCreditCalls = 0 ∧
    (agentChat minusOneEnv).branchRun = some .generalAnswer ∧
    (agentChat minusOneEnv).httpError = none := by
  decide

/-- C2 amended: the production preflight `check_credits(token, 1)` runs
exactly for the classifications that fall through to stage 2 — task codes 1
and 2, task code 3 with non-empty history, and any other non-error,
non-(-1) result including non-integers — and when it reports insufficient
credit the turn raises HTTP 402 with no handler invoked, no credit call and
no counter clear.  Task code -1 (and task 3 with empty history) get no
preflight. -/
theorem preflight_gate (env : TurnEnv) (hm : env.mode = .production)
    (hp : reachesPreflight env.classified env.historyEmpty = true) :
    (agentChat env).checkCreditCalls = 1 ∧
    (env.creditOk = false →
      (agentChat env).httpError = some 402 ∧
      (agentChat env).branchRun = none ∧
      (agentChat env).creditCalls = [] ∧
      (agentChat env).counterCleared = false) := by
  have hconds : env.classified ≠ .intCode (-100) ∧
      env.classified ≠ .intCode (-101) ∧
      env.classified ≠ .intCode (-102) ∧
      env.classified ≠ .intCode (-103) ∧
      ¬(env.classified = .intCode 3 ∧ env.historyEmpty = true) ∧
      env.classified ≠ .intCode (-1) := by
    cases hc : env.classified with
    | nonInt => simp
    | intCode n =>
      rw [hc] at hp
      simp only [reachesPreflight, Bool.not_eq_eq_eq_not, Bool.not_true,
        Bool.or_eq_false_iff, Bool.and_eq_false_iff,
        decide_eq_false_iff_not] at hp
      obtain ⟨⟨⟨⟨⟨hp0, hp1⟩, hp2⟩, hp3⟩, hp4⟩, hp5⟩ := hp
      refine ⟨by simp [hp0], by simp [hp1], by simp [hp2], by simp [hp3],
        ?_, by simp [hp4]⟩
      rintro ⟨he, hh⟩
      rcases hp5 with h | h
      · exact h (by injection he)
      · rw [hh] at h; cases h
  obtain ⟨h0, h1, h2, h3, hg, hm1⟩ := hconds
  unfold agentChat
  by_cases hok : env.creditOk
  · have hpay : ¬(env.mode = .production ∧ env.creditOk = false) := by
      rintro ⟨_, hco⟩; rw [hok] at hco; cases hco
    cases hb : branchOf (safeOf env.classified) with
    | none =>
      simp [h0, h1, h2, h3, hg, hm1, hpay, hb, hok, exceptionReturn,
        checksOf, hm]
    | some br =>
      by_cases hr : env.handlerRaises <;>
        simp [h0, h1, h2, h3, hg, hm1, hpay, hb, hr, hok, exceptionReturn,
          successReturn, checksOf, hm]
  · have hpay : env.mode = .production ∧ env.creditOk = false :=
      ⟨hm, by simpa using hok⟩
    simp [h0, h1, h2, h3, hg, hm1, hpay, paymentRequiredReturn]

/-- C2 witness: a concrete production task-2 turn with insufficient credit
makes the one preflight call and terminates with 402, no handler and no
settlement. -/
theorem preflight_gate_witness :
    (agentChat preflightWitnessEnv).checkCreditCalls = 1 ∧
    (agentChat preflightWitnessEnv).httpError = some 402 ∧
    (agentChat preflightWitnessEnv).branchRun = none ∧
    (agentChat preflightWitnessEnv).creditCalls = [] ∧
    (agentChat preflightWitnessEnv).counterCleared = false := by
  have h := preflight_gate preflightWitnessEnv rfl (by decide)
  exact ⟨h.1, (h.2 rfl).1, (h.2 rfl).2.1, (h.2 rfl).2.2.1, (h.2 rfl).2.2.2⟩

/-- C3 counterexample: on the caught-exception path the `ChatResponse` is
built without a `task_type` argument, so the field is absent (`None`) — the
claim that `task_type` is never absent, including on the caught-exception
error path, fails. -/
theorem task_type_absent_on_exception_path :
    (agentChat taskTypeExceptionEnv).taskType = none ∧
    (agentChat taskTypeExceptionEnv).status = "error" := by
  decide

/-- The stage-2 dispatch only yields a handler for task codes 1, 2 and 3. -/
theorem branchOf_some (n : Int) (br : Branch) (h : branchOf n = some br) :
    n = 1 ∨ n = 2 ∨ n = 3 := by
  unfold branchOf at h
  by_cases h1 : n = 1
  · exact Or.inl h1
  by_cases h2 : n = 2
  · exact Or.inr (Or.inl h2)
  by_cases h3 : n = 3
  · exact Or.inr (Or.inr h3)
  rw [if_neg h1, if_neg h2, if_neg h3] at h
  cases h

/-- The `task_type` field of every turn outcome: one of the canned codes, or
absent (on the exception and 402 paths only), or the dispatched
`safe_task_type`. -/
theorem agentChat_taskType_shape (env : TurnEnv) :
    (agentChat env).taskType = some (-100) ∨
    (agentChat env).taskType = some (-101) ∨
    (agentChat env).taskType = some (-102) ∨
    (agentChat env).taskType = some (-103) ∨
    (agentChat env).taskType = some 3 ∨
    (agentChat env).taskType = some (-1) ∨
    ((agentChat env).taskType = none ∧
      ((agentChat env).status = "error" ∨
       (agentChat env).httpError = some 402)) ∨
    (∃ br, branchOf (safeOf env.classified) = some br ∧
      (agentChat env).taskType = some (safeOf env.classified)) := by
  unfold agentChat
  by_cases h0 : env.classified = .intCode (-100)
  · simp [h0, earlyReturn]
  by_cases h1 : env.classified = .intCode (-101)
  · simp [h0, h1, earlyReturn]
  by_cases h2 : env.classified = .intCode (-102)
  · simp [h0, h1, h2, earlyReturn]
  by_cases h3 : env.classified = .intCode (-103)
  · simp [h0, h1, h2, h3, earlyReturn]
  by_cases hg : env.classified = .intCode 3 ∧ env.historyEmpty = true
  · simp [h0, h1, h2, h3, hg, guidanceReturn]
  by_cases hm1 : env.classified = .intCode (-1)
  · by_cases hr : env.handlerRaises
    · simp [h0, h1, h2, h3, hg, hm1, hr, exceptionReturn]
    · simp [h0, h1, h2, h3, hg, hm1, hr, generalAnswerReturn]
  by_cases hpay : env.mode = .production ∧ env.creditOk = false
  · simp [h0, h1, h2, h3, hg, hm1, hpay, paymentRequiredReturn]
  cases hb : branchOf (safeOf env.classified) with
  | none => simp [h0, h1, h2, h3, hg, hm1, hpay, hb, exceptionReturn]
  | some br =>
    by_cases hr : env.handlerRaises
    · simp [h0, h1, h2, h3, hg, hm1, hpay, hb, hr, exceptionReturn]
    · simp [h0, h1, h2, h3, hg, hm1, hpay, hb, hr, successReturn]

/-- C3 amended: whenever the response carries a `task_type`, it lies in
{-103, -102, -101, -100, -1, 1, 2, 3} — in particular 0 is never returned —
but the field is absent exactly on the caught-exception path (and on the
raised HTTP 402, which returns no `ChatResponse` at all). -/
theorem task_type_closure (env : TurnEnv) :
    (∀ t, (agentChat env).taskType = some t →
      t = -103 ∨ t = -102 ∨ t = -101 ∨ t = -100 ∨ t = -1 ∨
      t = 1 ∨ t = 2 ∨ t = 3) ∧
    ((agentChat env).taskType = none →
      (agentChat env).status = "error" ∨
      (agentChat env).httpError = some 402) := by
  constructor
  · intro t ht
    rcases agentChat_taskType_shape env with
      h | h | h | h | h | h | ⟨hn, _⟩ | ⟨br, hb, h⟩
    · rw [h] at ht; injection ht with ht; omega
    · rw [h] at ht; injection ht with ht; omega
    · rw [h] at ht; injection ht with ht; omega
    · rw [h] at ht; injection ht with ht; omega
    · rw [h] at ht; injection ht with ht; omega
    · rw [h] at ht; injection ht with ht; omega
    · rw [hn] at ht; cases ht
    · rw [h] at ht; injection ht with ht
      rcases branchOf_some _ _ hb with h1 | h2 | h3 <;> omega
  · intro hnone
    rcases agentChat_taskType_shape env with
      h | h | h | h | h | h | ⟨_, hs⟩ | ⟨br, hb, h⟩
    · rw [h] at hnone; cases hnone
    · rw [h] at hnone; cases hnone
    · rw [h] at hnone; cases hnone
    · rw [h] at hnone; cases hnone
    · rw [h] at hnone; cases hnone
    · rw [h] at hnone; cases hnone
    · exact hs
    · rw [h] at hnone; cases hnone

/-- C3 witness: a concrete aborted turn returns `task_type = -100`, which
the closure theorem places in the allowed set. -/
theorem task_type_closure_witness :
    (agentChat closureWitnessEnv).taskType = some (-100) ∧
    ((-100 : Int) = -103 ∨ (-100 : Int) = -102 ∨ (-100 : Int) = -101 ∨
     (-100 : Int) = -100 ∨ (-100 : Int) = -1 ∨ (-100 : Int) = 1 ∨
     (-100 : Int) = 2 ∨ (-100 : Int) = 3) :=
  ⟨by decide, (task_type_closure closureWitnessEnv).1 (-100) (by decide)⟩

/-- C9: when the stage-1 classification hands back a non-integer, the turn
does not fail: `safe_task_type` is substituted with 1, the knowledge branch
executes, and the response reports `task_type = 1` with status success
(provided the turn passes the production credit preflight and the handler
itself does not raise). -/
theorem nonint_classification_defaults_to_knowledge (env : TurnEnv)
    (hc : env.classified = .nonInt) (hr : env.handlerRaises = false)
    (hok : env.mode = .production → env.creditOk = true) :
    (agentChat env).branchRun = some .knowledge ∧
    (agentChat env).taskType = some 1 ∧
    (agentChat env).httpError = none ∧
    (agentChat env).status = "success" := by
  have hpay : ¬(env.mode = .production ∧ env.creditOk = false) := by
    rintro ⟨hmp, hco⟩
    rw [hok hmp] at hco
    cases hco
  unfold agentChat
  simp [hc, hpay, hr, successReturn, safeOf, branchOf]

/-- C9 witness: a concrete production turn with non-integer classification
runs the knowledge branch and returns `task_type = 1`. -/
theorem nonint_classification_witness :
    (agentChat nonIntWitnessEnv).branchRun = some .knowledge ∧
    (agentChat nonIntWitnessEnv).taskType = some 1 ∧
    (agentChat nonIntWitnessEnv).httpError = none ∧
    (agentChat nonIntWitnessEnv).status = "success" :=
  nonint_classification_defaults_to_knowledge nonIntWitnessEnv rfl rfl
    fun _ => rfl

/-- C5 counterexample: when the abort endpoint fires just after the
classifier's only abort check, the classification LLM call and both
handler calls complete (three external calls after the abort), the turn
terminates with its normal task code rather than -100, and the stage-2
`process_task` entry clears the still-set flag in the middle of the turn —
refuting both the one-call cancellation-latency bound and the rule that the
flag is cleared only at the start of the next turn. -/
theorem abort_ignored_after_classifier_check :
    (runAbortTurn .afterClassifierCheck).finalCode = 2 ∧
    (runAbortTurn .afterClassifierCheck).callsAfterAbort = 3 ∧
    (runAbortTurn .afterClassifierCheck).stageTwoClearRan = true ∧
    (runAbortTurn .afterClassifierCheck).flagSetAtStageTwoClear = true ∧
    (runAbortTurn .afterClassifierCheck).flagAtEnd = false := by
  decide

/-- C5 amended: a turn unwinds with -100 exactly when the abort flag is set
in the window between stage 1's `clear_abort_flag` and the classifier's
single pre-LLM check (in which case no external call completes after the
abort and the flag stays set until the next turn clears it); any abort set
before the turn or after that check is wiped — every `process_task`
invocation clears the flag on entry, including the stage-2 one in the
middle of the turn — and the turn runs to normal completion. -/
theorem abort_window_characterization (p : AbortPoint) :
    ((runAbortTurn p).finalCode = -100 ↔ p = .afterStageOneClear) ∧
    (p = .afterStageOneClear →
      (runAbortTurn p).callsAfterAbort = 0 ∧
      (runAbortTurn p).flagAtEnd = true) ∧
    ((runAbortTurn p).finalCode ≠ -100 →
      (runAbortTurn p).stageTwoClearRan = true) := by
  cases p <;> decide

/-- C5 witness: an abort landing inside the stage-1 window is honoured with
zero external calls completing afterwards. -/
theorem abort_window_witness :
    (runAbortTurn .afterStageOneClear).callsAfterAbort = 0 ∧
    (runAbortTurn .afterStageOneClear).flagAtEnd = true :=
  (abort_window_characterization .afterStageOneClear).2.1 rfl

end RSAgent
